import Mathlib

/-
  Shallow embedding of the authentication core of the repository
  (OTP service, session service, login controllers, validation helpers).

  Modelling conventions:
  * Timestamps are absolute instants in milliseconds (Int).  moment-timezone
    only changes how an instant is displayed; `isAfter` and `Date` comparison
    compare absolute instants, so the configured timezone does not affect any
    comparison modelled here and is omitted.
  * JavaScript strings that may be null/undefined are modelled as String with
    "" standing for the falsy values (null, undefined, empty string), because
    the code only ever tests them with JS truthiness (`if (mobile)`,
    `explicitMobile || user.phone`).
  * The `is_active` column of the users table can hold any JS value (the code
    stringifies it), so it is modelled by an explicit JS value type.
  * Randomness (OTP code, session UUID), the clock, bcrypt and the JWT signer
    are external inputs; they are passed as explicit parameters (oracles).
  * Database stores are lists of rows; `INSERT` is append, `UPDATE ... WHERE`
    is a map over the rows, `SELECT ... WHERE` is filter/find.  Every function
    that talks to the store threads the store explicitly, so that absence of
    writes is a provable fact rather than a modelling artefact.
-/

namespace BackendAuth

/-- Configuration consumed by the core (src/config/env.js): OTP TTL in
minutes, session TTL in hours.  The timezone entry only affects display
strings and is omitted (see the header comment). -/
structure Config where
  otpTtlMinutes : Int
  sessionTtlHours : Int
deriving Repr, DecidableEq

/-- JavaScript String.prototype.trim: removes leading and trailing
whitespace.  Implemented structurally on the character list so that it
evaluates by kernel reduction. -/
def jsTrim (s : String) : String :=
  ⟨((s.data.dropWhile Char.isWhitespace).reverse.dropWhile
      Char.isWhitespace).reverse⟩

/-- A JavaScript value as it can appear in the users.is_active column. -/
inductive JsValue where
  | vBool (b : Bool)
  | vStr (s : String)
  | vNum (n : Int)
  | vNull
  | vUndef
deriving Repr, DecidableEq

/-- JavaScript String(x) conversion for the values modelled by JsValue. -/
def jsToString : JsValue → String
  | .vBool true => "true"
  | .vBool false => "false"
  | .vStr s => s
  | .vNum n => toString n
  | .vNull => "null"
  | .vUndef => "undefined"

/-- JavaScript truthiness for the values modelled by JsValue. -/
def jsTruthy : JsValue → Bool
  | .vBool b => b
  | .vStr s => s ≠ ""
  | .vNum n => n ≠ 0
  | .vNull => false
  | .vUndef => false

/-- A row of the users table (see the schema in the repository README and the
fields read by src/middleware/validation.js). -/
structure UserRow where
  user_id : String
  email : String
  phone : String
  password_hash : String
  role : String
  is_active : JsValue
deriving Repr, DecidableEq

/-- A row of the users_otps table, with the columns written by
createOtpForUser and read by verifyUserOtp (src/config/env.js). -/
structure OtpRow where
  otp_id : Nat
  user_id : String
  phone : String
  otp_code : String
  otp_type : String
  expires_at : Int
  is_used : Bool
  attempts_count : Nat
  email : String
  ip_address : String
  created_at : Int
deriving Repr, DecidableEq

/-- A row of the user_sessions table (src/config/env.js,
createSessionForUser / validateSession / destroySession). -/
structure SessionRow where
  session_id : String
  user_id : String
  jwt_token : String
  device_type : String
  ip_address : String
  user_agent : String
  expires_at : Int
  last_activity_at : Int
  created_at : Int
  is_active : Bool
deriving Repr, DecidableEq

/-- Modelled from the spec: identity lookup by (email, role).  The file
src/services/userService.js is not part of the sources; per the spec the
collaborator interface is "Identity lookup by (email, role) ... returning an
identity record or none". -/
def findUserByEmailAndRole (users : List UserRow) (email role : String) :
    Option UserRow :=
  users.find? (fun u => u.email == email && u.role == role)

/-- Modelled from the spec: identity lookup by (phone, role), the second
collaborator lookup ("and by (phone, role)"). -/
def findUserByMobileAndRole (users : List UserRow) (mobile role : String) :
    Option UserRow :=
  users.find? (fun u => u.phone == mobile && u.role == role)

/-- isUserActive from src/middleware/validation.js:
`user && String(user.is_active).trim() === 'true'`.
A missing user (none) is falsy, so the conjunction is false. -/
def isUserActive : Option UserRow → Bool
  | none => false
  | some u => jsTrim (jsToString u.is_active) == "true"

/-- verifyPassword from src/middleware/validation.js: bcrypt comparison when
the stored value carries a bcrypt tag, plain equality otherwise.  The bcrypt
library is external; it is passed as the oracle `bc` (a bcrypt error is
absorbed into `bc` returning false, as the catch block does). -/
def verifyPassword (bc : String → String → Bool) (plain hashed : String) :
    Bool :=
  if hashed.startsWith "$2a$" || hashed.startsWith "$2b$"
      || hashed.startsWith "$2y$" then
    bc plain hashed
  else
    plain == hashed

/-- JS `explicitMobile || user.phone` in createOtpForUser. -/
def effectiveMobile (explicitMobile phone : String) : String :=
  if explicitMobile ≠ "" then explicitMobile else phone

/-- A delivery channel used by createOtpForUser. -/
inductive Channel where
  | sms
  | email
deriving Repr, DecidableEq

/-- What createOtpForUser returns to its caller (otpCode, expiry instant and
the inserted row; the formatted display strings carry no extra state and are
omitted). -/
structure IssueResult where
  otpCode : String
  expiresUTC : Int
  row : OtpRow
deriving Repr, DecidableEq

/-- createOtpForUser from src (otpService): computes the expiry instant
(now + TTL minutes, with the JS `Number(config.otp.ttlMinutes || 30)`
fallback), inserts the OTP row, then attempts delivery on each channel whose
target is present.  Each attempt is wrapped in a catch that swallows the
error, and the attempts are awaited with Promise.allSettled, so delivery
outcomes (`smsOk`, `emailOk`) influence neither the store nor the returned
result; the attempts made are returned as the third component so that the
dispatch behaviour is observable.  `otpCode` is the oracle for the random
4-digit code, `now` the oracle for the clock; otp_id models the serial
column, created_at the DB default now(). -/
def createOtpForUser (otpCode : String) (now : Int) (cfg : Config)
    (smsOk emailOk : Bool) (store : List OtpRow) (user : UserRow)
    (explicitMobile : String) (otpType : String) :
    List OtpRow × IssueResult × List (Channel × Bool) :=
  let ttl : Int := if cfg.otpTtlMinutes = 0 then 30 else cfg.otpTtlMinutes
  let expiresUTC : Int := now + ttl * 60000
  let mobile := effectiveMobile explicitMobile user.phone
  let email := user.email
  let row : OtpRow :=
    { otp_id := store.length
      user_id := user.user_id
      phone := mobile
      otp_code := otpCode
      otp_type := otpType
      expires_at := expiresUTC
      is_used := false
      attempts_count := 0
      email := email
      ip_address := "127.0.0.1"
      created_at := now }
  let attempts : List (Channel × Bool) :=
    (if mobile ≠ "" then [(Channel.sms, smsOk)] else []) ++
      (if email ≠ "" then [(Channel.email, emailOk)] else [])
  (store ++ [row], ⟨otpCode, expiresUTC, row⟩, attempts)

/-- The record verifyUserOtp selects:
`where user_id=$1 and phone=$2 and otp_type='LOGIN' order by created_at desc
limit 1` — the matching row with the greatest created_at (the purpose is
fixed to LOGIN in the query). -/
def latestOtp (store : List OtpRow) (userId mobile : String) : Option OtpRow :=
  (store.filter
      (fun r => r.user_id == userId && r.phone == mobile
        && r.otp_type == "LOGIN")).foldl
    (fun acc r =>
      match acc with
      | none => some r
      | some b => if r.created_at > b.created_at then some r else some b)
    none

/-- Outcome of verifyUserOtp: `{valid: true, otpRow}` or
`{valid: false, reason}`. -/
inductive VerifyResult where
  | valid (otpRow : OtpRow)
  | invalid (reason : String)
deriving Repr, DecidableEq

/-- verifyUserOtp from src (otpService): selects the latest LOGIN record for
(user, phone) and checks, in order: record present, not used, not expired
(moment isAfter — strictly after the stored instant), trimmed string
equality of the codes.  Its only database operation is the SELECT, so the
store is returned unchanged alongside the result. -/
def verifyUserOtp (now : Int) (store : List OtpRow)
    (userId mobile otp : String) : List OtpRow × VerifyResult :=
  match latestOtp store userId mobile with
  | none => (store, .invalid "otp_not_found")
  | some row =>
    if row.is_used then (store, .invalid "otp_used")
    else if now > row.expires_at then (store, .invalid "otp_expired")
    else if jsTrim row.otp_code ≠ jsTrim otp then (store, .invalid "otp_mismatch")
    else (store, .valid row)

/-- What createSessionForUser returns to its caller. -/
structure CreateSessionResult where
  sessionId : String
  expiresAt : Int
  dbRow : SessionRow
deriving Repr, DecidableEq

/-- createSessionForUser from src (sessionService): expiry = now + session
TTL hours; the INSERT passes $6 (the computed expiresAt) for BOTH the
expires_at and the created_at columns, and $7 (now, as lastActivity) for
last_activity_at; is_active is true and device_type the literal 'system'.
`sessionId` is the oracle for the random UUID, `now` for the clock. -/
def createSessionForUser (now : Int) (cfg : Config) (sessionId : String)
    (userId token ip ua : String) (store : List SessionRow) :
    List SessionRow × CreateSessionResult :=
  let expiresAt : Int := now + cfg.sessionTtlHours * 3600000
  let row : SessionRow :=
    { session_id := sessionId
      user_id := userId
      jwt_token := token
      device_type := "system"
      ip_address := ip
      user_agent := ua
      expires_at := expiresAt
      last_activity_at := now
      created_at := expiresAt
      is_active := true }
  (store ++ [row], ⟨sessionId, expiresAt, row⟩)

/-- The row validateSession reads: `WHERE session_id = $1`, first match. -/
def findSession (store : List SessionRow) (sid : String) : Option SessionRow :=
  store.find? (fun r => r.session_id == sid)

/-- Outcome of validateSession. -/
inductive SessionCheck where
  | valid (session : SessionRow)
  | invalid (reason : String)
deriving Repr, DecidableEq

/-- validateSession from src (sessionService): not_found when no row,
inactive when the is_active flag is false, expired when
`new Date(expires_at) <= now`, valid otherwise. -/
def validateSession (now : Int) (store : List SessionRow) (sid : String) :
    SessionCheck :=
  match findSession store sid with
  | none => .invalid "not_found"
  | some s =>
    if !s.is_active then .invalid "inactive"
    else if s.expires_at ≤ now then .invalid "expired"
    else .valid s

/-- destroySession from src (sessionService):
`UPDATE user_sessions SET is_active = false, last_activity_at = NOW()
WHERE session_id = $1` — a flag flip on every matching row, an error on
none; `now` is the oracle for NOW(). -/
def destroySession (now : Int) (store : List SessionRow) (sid : String) :
    List SessionRow :=
  store.map (fun r =>
    if r.session_id == sid then
      { r with is_active := false, last_activity_at := now }
    else r)

/-- destroyAllSessionsForUser from src (sessionService): the same UPDATE
keyed by user_id. -/
def destroyAllSessionsForUser (now : Int) (store : List SessionRow)
    (userId : String) : List SessionRow :=
  store.map (fun r =>
    if r.user_id == userId then
      { r with is_active := false, last_activity_at := now }
    else r)

/-- The (status, message) pair produced by successResponse / errorResponse
(src response helpers).  The flattened data payload carries no information
the claims are about and is tracked through the returned stores instead. -/
structure LoginResponse where
  status : Nat
  message : String
deriving Repr, DecidableEq

/-- validateCredentials (STEP 1) from src/middleware/validation.js: looks up
the identity by email+role, requires it active, verifies the password, then
issues an OTP; every credential failure is the identical
401 'Invalid user credentials'. -/
def validateCredentials (bc : String → String → Bool) (otpCode : String)
    (now : Int) (cfg : Config) (smsOk emailOk : Bool)
    (users : List UserRow) (otps : List OtpRow)
    (email password role : String) : List OtpRow × LoginResponse :=
  match findUserByEmailAndRole users email role with
  | none => (otps, ⟨401, "Invalid user credentials"⟩)
  | some u =>
    if !isUserActive (some u) then (otps, ⟨401, "Invalid user credentials"⟩)
    else if !verifyPassword bc password u.password_hash then
      (otps, ⟨401, "Invalid user credentials"⟩)
    else
      let res := createOtpForUser otpCode now cfg smsOk emailOk otps u "" "LOGIN"
      (res.1, ⟨200, "Valid details. OTP sent"⟩)

/-- sendOtp (STEP 2) from src/middleware/validation.js: looks up the
identity by mobile+role, requires it active, issues an OTP to that mobile. -/
def sendOtp (otpCode : String) (now : Int) (cfg : Config)
    (smsOk emailOk : Bool) (users : List UserRow) (otps : List OtpRow)
    (mobile role : String) : List OtpRow × LoginResponse :=
  match findUserByMobileAndRole users mobile role with
  | none => (otps, ⟨401, "Invalid user credentials"⟩)
  | some u =>
    if !isUserActive (some u) then (otps, ⟨401, "Invalid user credentials"⟩)
    else
      let res := createOtpForUser otpCode now cfg smsOk emailOk otps u mobile "LOGIN"
      (res.1, ⟨200, "OTP sent"⟩)

/-- finalLogin (STEP 3) from src/middleware/validation.js: resolves the
identity by email (preferred) or mobile, requires it active, resolves the
mobile target (`mobile || user.phone`), runs verifyUserOtp, and on success
signs a token (oracle `token`) and creates the session.  The OTP store
produced by verifyUserOtp is threaded through to the result. -/
def finalLogin (now : Int) (cfg : Config) (token sessionId ip ua : String)
    (users : List UserRow) (otps : List OtpRow) (sessions : List SessionRow)
    (email mobile role otp : String) :
    List OtpRow × List SessionRow × LoginResponse :=
  let user :=
    if email ≠ "" then findUserByEmailAndRole users email role
    else if mobile ≠ "" then findUserByMobileAndRole users mobile role
    else none
  match user with
  | none => (otps, sessions, ⟨401, "Invalid user credentials"⟩)
  | some u =>
    if !isUserActive (some u) then
      (otps, sessions, ⟨401, "Invalid user credentials"⟩)
    else
      let mobileToUse := if mobile ≠ "" then mobile else u.phone
      if mobileToUse = "" then
        (otps, sessions, ⟨400, "Mobile number is required for OTP verification"⟩)
      else
        let vres := verifyUserOtp now otps u.user_id mobileToUse otp
        match vres.2 with
        | .invalid reason =>
          (vres.1, sessions, ⟨401, "Invalid OTP: " ++ reason⟩)
        | .valid _ =>
          let sres := createSessionForUser now cfg sessionId u.user_id token ip ua sessions
          (vres.1, sres.1, ⟨200, "Login successful"⟩)

/- ------------------------------------------------------------------ -/
/- Sample data used by concrete counterexamples and witnesses.         -/
/- ------------------------------------------------------------------ -/

/-- Configuration with the documented defaults: 10-minute OTP TTL,
8-hour session TTL. -/
def sampleCfg : Config := ⟨10, 8⟩

/-- An active user (boolean true flag). -/
def sampleUser : UserRow :=
  ⟨"u1", "a@x.com", "999", "pw", "USER", .vBool true⟩

/-- The OTP record of the spec scenario: code "4821" issued at T0 = 0 with a
10-minute TTL, so expires_at = 600000 ms. -/
def sampleOtpRow : OtpRow :=
  ⟨0, "u1", "999", "4821", "LOGIN", 600000, false, 0, "a@x.com",
    "127.0.0.1", 0⟩

/-- A user whose is_active column holds the truthy JS string "1". -/
def sampleUserActiveOne : UserRow :=
  ⟨"u2", "b@x.com", "888", "pw", "USER", .vStr "1"⟩

/-- A user whose is_active column holds boolean false. -/
def sampleUserInactive : UserRow :=
  ⟨"u3", "c@x.com", "777", "pw", "USER", .vBool false⟩

/-- An active, unexpired session. -/
def sampleSession : SessionRow :=
  ⟨"sid1", "u1", "tok", "system", "1.2.3.4", "UA", 28800000, 0, 28800000,
    true⟩

/- ------------------------------------------------------------------ -/
/- Helper lemmas.                                                      -/
/- ------------------------------------------------------------------ -/

/-- verifyUserOtp leaves the OTP store untouched: its only database
operation is the SELECT. -/
theorem verifyUserOtp_store_eq (now : Int) (store : List OtpRow)
    (userId mobile otp : String) :
    (verifyUserOtp now store userId mobile otp).1 = store := by
  unfold verifyUserOtp
  cases latestOtp store userId mobile with
  | none => rfl
  | some row =>
    by_cases h1 : row.is_used <;> by_cases h2 : now > row.expires_at <;>
      by_cases h3 : jsTrim row.otp_code = jsTrim otp <;> simp [h1, h2, h3]

/-- Revoking a session rewrites the matching rows in place, so lookup after
revocation finds the same row with the flag cleared and the activity time
updated. -/
theorem findSession_destroySession (t : Int) (store : List SessionRow)
    (sid : String) :
    findSession (destroySession t store sid) sid =
      (findSession store sid).map
        (fun r => { r with is_active := false, last_activity_at := t }) := by
  unfold findSession destroySession
  rw [List.find?_map]
  have hp : ((fun r : SessionRow => r.session_id == sid) ∘ fun r =>
      if r.session_id == sid then
        { r with is_active := false, last_activity_at := t }
      else r) = fun r : SessionRow => r.session_id == sid := by
    funext r
    by_cases h : r.session_id = sid <;> simp [h]
  rw [hp]
  cases hf : List.find? (fun r : SessionRow => r.session_id == sid) store with
  | none => rfl
  | some s =>
    have hs := List.find?_some hf
    simp only [beq_iff_eq] at hs
    simp [hs]

/-- finalLogin leaves the OTP store unchanged on every path: the only OTP
access it makes is the SELECT inside verifyUserOtp, and no path marks the
record used. -/
theorem finalLogin_otps_eq (now : Int) (cfg : Config)
    (token sessionId ip ua : String) (users : List UserRow)
    (otps : List OtpRow) (sessions : List SessionRow)
    (email mobile role otp : String) :
    (finalLogin now cfg token sessionId ip ua users otps sessions
      email mobile role otp).1 = otps := by
  simp only [finalLogin]
  repeat' split
  all_goals simp [verifyUserOtp_store_eq]

/-- Applying the revoke UPDATE twice for the same session id is the same as
applying it once at the final timestamp. -/
theorem destroySession_idem (t1 t2 : Int) (store : List SessionRow)
    (sid : String) :
    destroySession t2 (destroySession t1 store sid) sid =
      destroySession t2 store sid := by
  unfold destroySession
  rw [List.map_map]
  apply List.map_congr_left
  intro r _
  by_cases h : r.session_id = sid <;> simp [Function.comp, h]

/-- Applying the bulk-revoke UPDATE twice for the same user id is the same
as applying it once at the final timestamp. -/
theorem destroyAll_idem (t1 t2 : Int) (store : List SessionRow)
    (userId : String) :
    destroyAllSessionsForUser t2
        (destroyAllSessionsForUser t1 store userId) userId =
      destroyAllSessionsForUser t2 store userId := by
  unfold destroyAllSessionsForUser
  rw [List.map_map]
  apply List.map_congr_left
  intro r _
  by_cases h : r.user_id = userId <;> simp [Function.comp, h]

/-- Revoking a session id with no stored row is a no-op (the UPDATE matches
nothing and raises no error). -/
theorem destroySession_absent (t : Int) (sid : String)
    (store : List SessionRow) (h : findSession store sid = none) :
    destroySession t store sid = store := by
  unfold findSession at h
  rw [List.find?_eq_none] at h
  unfold destroySession
  conv_rhs => rw [← List.map_id store]
  apply List.map_congr_left
  intro r hr
  have hne : ¬r.session_id = sid := by simpa using h r hr
  simp [hne]

/-- Bulk revocation for a user with no stored session is a no-op. -/
theorem destroyAll_absent (t : Int) (userId : String)
    (store : List SessionRow) (h : ∀ s ∈ store, s.user_id ≠ userId) :
    destroyAllSessionsForUser t store userId = store := by
  unfold destroyAllSessionsForUser
  conv_rhs => rw [← List.map_id store]
  apply List.map_congr_left
  intro r hr
  simp [h r hr]

/-- After revoking a session id, every stored row with that id is
inactive. -/
theorem destroySession_inactive (t : Int) (store : List SessionRow)
    (sid : String) :
    ∀ s ∈ destroySession t store sid, s.session_id = sid →
      s.is_active = false := by
  intro s hs hsid
  unfold destroySession at hs
  rw [List.mem_map] at hs
  obtain ⟨r, hr, hfr⟩ := hs
  by_cases h : r.session_id = sid
  · rw [← hfr]
    simp [h]
  · rw [← hfr] at hsid
    simp [h] at hsid

/-- After bulk revocation for a user, every stored row of that user is
inactive. -/
theorem destroyAll_inactive (t : Int) (store : List SessionRow)
    (userId : String) :
    ∀ s ∈ destroyAllSessionsForUser t store userId, s.user_id = userId →
      s.is_active = false := by
  intro s hs hsid
  unfold destroyAllSessionsForUser at hs
  rw [List.mem_map] at hs
  obtain ⟨r, hr, hfr⟩ := hs
  by_cases h : r.user_id = userId
  · rw [← hfr]
    simp [h]
  · rw [← hfr] at hsid
    simp [h] at hsid

/-- The stores and response produced by a first finalLogin in the spec
scenario: user u1, code "4821" issued at 0 and expiring at 600000, login
attempted at 300000 (T0 + 5 minutes). -/
def firstLoginRun : List OtpRow × List SessionRow × LoginResponse :=
  finalLogin 300000 sampleCfg "tok1" "sid1" "1.2.3.4" "UA"
    [sampleUser] [sampleOtpRow] [] "a@x.com" "" "USER" "4821"

/-- A second finalLogin with the same code "4821", replayed against the
stores left behind by the first one. -/
def secondLoginRun : List OtpRow × List SessionRow × LoginResponse :=
  finalLogin 300001 sampleCfg "tok2" "sid2" "1.2.3.4" "UA"
    [sampleUser] firstLoginRun.1 firstLoginRun.2.1 "a@x.com" "" "USER" "4821"

/- ------------------------------------------------------------------ -/
/- Claim theorems.                                                     -/
/- ------------------------------------------------------------------ -/

/-- C1 (code bug): in the spec scenario the first finalLogin with code
"4821" before expiry succeeds, but no code path ever sets the used flag
(the OTP store comes back unchanged), so a second finalLogin replaying the
same code also succeeds instead of failing with otp_used as the claim
requires. -/
theorem C1_replay_not_rejected :
    firstLoginRun.2.2 = ⟨200, "Login successful"⟩ ∧
    firstLoginRun.1 = [sampleOtpRow] ∧
    secondLoginRun.2.2 = ⟨200, "Login successful"⟩ ∧
    secondLoginRun.2.2 ≠ ⟨401, "Invalid OTP: otp_used"⟩ :=
  ⟨by decide, by decide, by decide, by decide⟩

/-- C2: verifyUserOtp checks its failure conditions in a fixed precedence
order on the single most-recently-created record for (user, target) with
the LOGIN purpose (the otp_type is fixed to LOGIN inside the query): no
record → otp_not_found; else the used flag → otp_used; else current time
past expiry → otp_expired; else trimmed submitted code differing from the
trimmed stored code as strings → otp_mismatch; otherwise valid. -/
theorem C2_verify_precedence (now : Int) (store : List OtpRow)
    (userId mobile otp : String) :
    (latestOtp store userId mobile = none →
      (verifyUserOtp now store userId mobile otp).2 =
        .invalid "otp_not_found") ∧
    (∀ row, latestOtp store userId mobile = some row →
      (row.is_used = true →
        (verifyUserOtp now store userId mobile otp).2 =
          .invalid "otp_used") ∧
      (row.is_used = false → row.expires_at < now →
        (verifyUserOtp now store userId mobile otp).2 =
          .invalid "otp_expired") ∧
      (row.is_used = false → now ≤ row.expires_at →
        jsTrim row.otp_code ≠ jsTrim otp →
        (verifyUserOtp now store userId mobile otp).2 =
          .invalid "otp_mismatch") ∧
      (row.is_used = false → now ≤ row.expires_at →
        jsTrim row.otp_code = jsTrim otp →
        (verifyUserOtp now store userId mobile otp).2 = .valid row)) := by
  constructor
  · intro h
    simp [verifyUserOtp, h]
  · intro row h
    refine ⟨?_, ?_, ?_, ?_⟩
    · intro h1
      simp [verifyUserOtp, h, h1]
    · intro h1 h2
      simp [verifyUserOtp, h, h1, h2]
    · intro h1 h2 h3
      simp [verifyUserOtp, h, h1, h3, not_lt.mpr h2]
    · intro h1 h2 h3
      simp [verifyUserOtp, h, h1, h3, not_lt.mpr h2]

/-- C2 witness: with an empty store the result is otp_not_found. -/
theorem C2_verify_precedence_witness :
    (verifyUserOtp 0 ([] : List OtpRow) "u1" "999" "4821").2 =
      .invalid "otp_not_found" :=
  (C2_verify_precedence 0 [] "u1" "999" "4821").1 (by decide)

/-- C3 counterexample: the spec-scenario record (code "4821", expiry at
instant 600000) verified at exactly its expires_at instant with the exact
code succeeds, whereas the claim requires every verification "at or after
expires_at" to fail otp_expired. -/
theorem C3_counterexample_at_expiry :
    (verifyUserOtp 600000 [sampleOtpRow] "u1" "999" "4821").2 =
      .valid sampleOtpRow ∧
    (verifyUserOtp 600000 [sampleOtpRow] "u1" "999" "4821").2 ≠
      .invalid "otp_expired" := by
  constructor <;> decide

/-- C3 (amended): verification fails otp_expired exactly for clock values
strictly after the record's expiry (moment isAfter is a strict comparison);
at expires_at itself the expiry check still passes.  Stated for a selected,
unused record. -/
theorem C3_expired_strictly_after (now : Int) (store : List OtpRow)
    (userId mobile otp : String) (row : OtpRow)
    (hsel : latestOtp store userId mobile = some row)
    (hused : row.is_used = false) (hexp : row.expires_at < now) :
    (verifyUserOtp now store userId mobile otp).2 =
      .invalid "otp_expired" := by
  simp [verifyUserOtp, hsel, hused, hexp]

/-- C3 witness: one millisecond past expiry, the exact code is rejected as
otp_expired. -/
theorem C3_expired_strictly_after_witness :
    (verifyUserOtp 600001 [sampleOtpRow] "u1" "999" "4821").2 =
      .invalid "otp_expired" :=
  C3_expired_strictly_after 600001 [sampleOtpRow] "u1" "999" "4821"
    sampleOtpRow (by decide) (by decide) (by decide)

/-- C5: verification performs no writes.  verifyUserOtp returns the OTP
store unchanged under every outcome, and finalLogin — the caller that
consumes a successful verification — also leaves the OTP store, and with it
every field of the selected record including the used flag, exactly as it
was. -/
theorem C5_verify_is_read_only (now nowL : Int) (store : List OtpRow)
    (userId mobile otp : String) (cfg : Config)
    (token sessionId ip ua : String) (users : List UserRow)
    (sessions : List SessionRow) (email mob role code : String) :
    (verifyUserOtp now store userId mobile otp).1 = store ∧
    (finalLogin nowL cfg token sessionId ip ua users store sessions
      email mob role code).1 = store :=
  ⟨verifyUserOtp_store_eq now store userId mobile otp,
   finalLogin_otps_eq nowL cfg token sessionId ip ua users store sessions
     email mob role code⟩

/-- C10: the INSERT in createSessionForUser passes the computed expiresAt
value for both the expires_at and the created_at columns, so the persisted
creation time of every session equals its expiry time (now + session TTL),
not the time of creation. -/
theorem C10_created_at_is_expiry (now : Int) (cfg : Config)
    (sessionId userId token ip ua : String) (store : List SessionRow) :
    ((createSessionForUser now cfg sessionId userId token ip ua
        store).2.dbRow.created_at =
      (createSessionForUser now cfg sessionId userId token ip ua
        store).2.dbRow.expires_at) ∧
    (createSessionForUser now cfg sessionId userId token ip ua
        store).2.dbRow.created_at = now + cfg.sessionTtlHours * 3600000 :=
  ⟨rfl, rfl⟩

/-- C4: a stored session validates iff it is active and the clock is
strictly before its expiry; the failure reason is not_found exactly when no
row exists, inactive when the row exists with the flag false (checked
before expiry), expired when an active row has expires_at ≤ now; and
revoking a stored session then validating the same id always fails with
reason inactive. -/
theorem C4_session_validity (now : Int) (store : List SessionRow)
    (sid : String) :
    ((∃ s, validateSession now store sid = .valid s) ↔
      ∃ s, findSession store sid = some s ∧ s.is_active = true ∧
        now < s.expires_at) ∧
    (validateSession now store sid = .invalid "not_found" ↔
      findSession store sid = none) ∧
    (∀ s, findSession store sid = some s → s.is_active = false →
      validateSession now store sid = .invalid "inactive") ∧
    (∀ s, findSession store sid = some s → s.is_active = true →
      s.expires_at ≤ now →
      validateSession now store sid = .invalid "expired") ∧
    (∀ s t now2, findSession store sid = some s →
      validateSession now2 (destroySession t store sid) sid =
        .invalid "inactive") := by
  refine ⟨?_, ?_, ?_, ?_, ?_⟩
  · cases hf : findSession store sid with
    | none => simp [validateSession, hf]
    | some s =>
      by_cases ha : s.is_active
      · by_cases he : s.expires_at ≤ now
        · simp [validateSession, hf, ha, he, not_lt.mpr he]
        · simp [validateSession, hf, ha, he, not_le.mp he]
      · simp [validateSession, hf, ha]
  · cases hf : findSession store sid with
    | none => simp [validateSession, hf]
    | some s =>
      by_cases ha : s.is_active <;> by_cases he : s.expires_at ≤ now <;>
        simp [validateSession, hf, ha, he]
  · intro s hf ha
    simp [validateSession, hf, ha]
  · intro s hf ha he
    simp [validateSession, hf, ha, he]
  · intro s t now2 hf
    simp [validateSession, findSession_destroySession, hf]

/-- C4 witness: revoking the stored sample session and validating it again
fails with reason inactive. -/
theorem C4_session_validity_witness :
    validateSession 1 (destroySession 0 [sampleSession] "sid1") "sid1" =
      .invalid "inactive" :=
  (C4_session_validity 1 [sampleSession] "sid1").2.2.2.2 sampleSession 0 1
    (by decide)

/-- C6: issuance is decoupled from delivery.  The persisted record and the
returned issuance result (code, expiry, row) are identical whatever the
delivery outcomes are; issuance always appends exactly one record; and both
channels are attempted whenever their targets are present, regardless of
the other channel failing. -/
theorem C6_issuance_survives_delivery_failure (otpCode : String) (now : Int)
    (cfg : Config) (smsOk emailOk : Bool) (store : List OtpRow)
    (user : UserRow) (explicitMobile otpType : String) :
    ((createOtpForUser otpCode now cfg smsOk emailOk store user
        explicitMobile otpType).1 =
      (createOtpForUser otpCode now cfg true true store user
        explicitMobile otpType).1) ∧
    ((createOtpForUser otpCode now cfg smsOk emailOk store user
        explicitMobile otpType).2.1 =
      (createOtpForUser otpCode now cfg true true store user
        explicitMobile otpType).2.1) ∧
    (createOtpForUser otpCode now cfg smsOk emailOk store user
        explicitMobile otpType).2.1.otpCode = otpCode ∧
    ((createOtpForUser otpCode now cfg smsOk emailOk store user
        explicitMobile otpType).1 =
      store ++ [(createOtpForUser otpCode now cfg smsOk emailOk store user
        explicitMobile otpType).2.1.row]) ∧
    (effectiveMobile explicitMobile user.phone ≠ "" →
      (Channel.sms, smsOk) ∈
        (createOtpForUser otpCode now cfg smsOk emailOk store user
          explicitMobile otpType).2.2) ∧
    (user.email ≠ "" →
      (Channel.email, emailOk) ∈
        (createOtpForUser otpCode now cfg smsOk emailOk store user
          explicitMobile otpType).2.2) := by
  refine ⟨rfl, rfl, rfl, rfl, ?_, ?_⟩
  · intro h
    simp [createOtpForUser, h]
  · intro h
    by_cases hm : effectiveMobile explicitMobile user.phone = "" <;>
      simp [createOtpForUser, h, hm]

/-- C6 witness: with SMS delivery failing and email succeeding for the
sample user (both targets present), both channels are still attempted. -/
theorem C6_issuance_survives_delivery_failure_witness :
    (Channel.sms, false) ∈
      (createOtpForUser "1234" 0 sampleCfg false true [] sampleUser ""
        "LOGIN").2.2 ∧
    (Channel.email, true) ∈
      (createOtpForUser "1234" 0 sampleCfg false true [] sampleUser ""
        "LOGIN").2.2 :=
  ⟨(C6_issuance_survives_delivery_failure "1234" 0 sampleCfg false true []
      sampleUser "" "LOGIN").2.2.2.2.1 (by decide),
   (C6_issuance_survives_delivery_failure "1234" 0 sampleCfg false true []
      sampleUser "" "LOGIN").2.2.2.2.2 (by decide)⟩

/-- C7: the three credential failure causes of validateCredentials — no
identity matching (email, role), a matching identity whose active check
fails, and a password that does not verify — all produce the identical
response (401, Invalid user credentials) and leave the OTP store
untouched. -/
theorem C7_credential_failures_identical (bc : String → String → Bool)
    (otpCode : String) (now : Int) (cfg : Config) (smsOk emailOk : Bool)
    (users : List UserRow) (otps : List OtpRow)
    (email password role : String) :
    (findUserByEmailAndRole users email role = none →
      validateCredentials bc otpCode now cfg smsOk emailOk users otps
        email password role = (otps, ⟨401, "Invalid user credentials"⟩)) ∧
    (∀ u, findUserByEmailAndRole users email role = some u →
      isUserActive (some u) = false →
      validateCredentials bc otpCode now cfg smsOk emailOk users otps
        email password role = (otps, ⟨401, "Invalid user credentials"⟩)) ∧
    (∀ u, findUserByEmailAndRole users email role = some u →
      isUserActive (some u) = true →
      verifyPassword bc password u.password_hash = false →
      validateCredentials bc otpCode now cfg smsOk emailOk users otps
        email password role = (otps, ⟨401, "Invalid user credentials"⟩)) := by
  refine ⟨?_, ?_, ?_⟩
  · intro h
    simp [validateCredentials, h]
  · intro u h ha
    simp [validateCredentials, h, ha]
  · intro u h ha hp
    simp [validateCredentials, h, ha, hp]

/-- C7 witness: with no stored identities the response is the common
401 Invalid user credentials. -/
theorem C7_credential_failures_identical_witness :
    validateCredentials (fun _ _ => false) "1234" 0 sampleCfg true true
      [] [] "a@x.com" "pw" "USER" =
      ([], ⟨401, "Invalid user credentials"⟩) :=
  (C7_credential_failures_identical (fun _ _ => false) "1234" 0 sampleCfg
    true true [] [] "a@x.com" "pw" "USER").1 (by decide)

/-- C8 counterexample: the is_active value "1" is truthy in JavaScript, yet
the active check rejects it — validateCredentials returns 401 Invalid user
credentials for that user even though the submitted password matches the
stored credential. -/
theorem C8_counterexample_truthy_flag_rejected :
    jsTruthy (JsValue.vStr "1") = true ∧
    isUserActive (some sampleUserActiveOne) = false ∧
    validateCredentials (fun _ _ => false) "1234" 0 sampleCfg true true
      [sampleUserActiveOne] [] "b@x.com" "pw" "USER" =
      ([], ⟨401, "Invalid user credentials"⟩) :=
  ⟨by decide, by decide, by decide⟩

/-- C8 (amended): the active check is a stringified comparison, not a JS
truthiness test: an identity passes exactly when String(is_active).trim()
equals "true"; and in each of the three entry points, when the resolved
identity fails that check the response is 401 Invalid user credentials. -/
theorem C8_active_check_is_stringified_comparison (u : UserRow)
    (bc : String → String → Bool) (otpCode : String) (now : Int)
    (cfg : Config) (smsOk emailOk : Bool) (token sessionId ip ua : String)
    (users : List UserRow) (otps : List OtpRow) (sessions : List SessionRow)
    (email mobile password role otp : String) :
    (isUserActive (some u) = true ↔
      jsTrim (jsToString u.is_active) = "true") ∧
    (findUserByEmailAndRole users email role = some u →
      isUserActive (some u) = false →
      validateCredentials bc otpCode now cfg smsOk emailOk users otps
        email password role = (otps, ⟨401, "Invalid user credentials"⟩)) ∧
    (findUserByMobileAndRole users mobile role = some u →
      isUserActive (some u) = false →
      sendOtp otpCode now cfg smsOk emailOk users otps mobile role =
        (otps, ⟨401, "Invalid user credentials"⟩)) ∧
    ((if email ≠ "" then findUserByEmailAndRole users email role
      else if mobile ≠ "" then findUserByMobileAndRole users mobile role
      else none) = some u →
      isUserActive (some u) = false →
      finalLogin now cfg token sessionId ip ua users otps sessions
        email mobile role otp =
        (otps, sessions, ⟨401, "Invalid user credentials"⟩)) := by
  refine ⟨?_, ?_, ?_, ?_⟩
  · simp [isUserActive]
  · intro h ha
    simp [validateCredentials, h, ha]
  · intro h ha
    simp [sendOtp, h, ha]
  · intro h ha
    simp only [ne_eq, ite_not] at h
    simp [finalLogin, h, ha]

/-- C8 witness: a user with boolean-false flag fails the stringified check
and validateCredentials answers 401 Invalid user credentials. -/
theorem C8_active_check_is_stringified_comparison_witness :
    validateCredentials (fun _ _ => false) "1234" 0 sampleCfg true true
      [sampleUserInactive] [] "c@x.com" "pw" "USER" =
      ([], ⟨401, "Invalid user credentials"⟩) :=
  (C8_active_check_is_stringified_comparison sampleUserInactive
    (fun _ _ => false) "1234" 0 sampleCfg true true "tok" "sid" "ip" "ua"
    [sampleUserInactive] [] [] "c@x.com" "" "pw" "USER" "0000").2.1
    (by decide) (by decide)

/-- C9: revocation is idempotent and total: revoking twice equals revoking
once at the later timestamp and leaves every row with that session id
inactive; revoking a nonexistent session id is a no-op (no error); bulk
revocation is likewise idempotent, leaves every session of the user
inactive, and is a no-op for a user with no stored sessions. -/
theorem C9_revoke_idempotent_total (t1 t2 : Int) (store : List SessionRow)
    (sid userId : String) :
    (destroySession t2 (destroySession t1 store sid) sid =
      destroySession t2 store sid) ∧
    (∀ s ∈ destroySession t2 (destroySession t1 store sid) sid,
      s.session_id = sid → s.is_active = false) ∧
    (findSession store sid = none → destroySession t1 store sid = store) ∧
    (destroyAllSessionsForUser t2
        (destroyAllSessionsForUser t1 store userId) userId =
      destroyAllSessionsForUser t2 store userId) ∧
    (∀ s ∈ destroyAllSessionsForUser t1 store userId, s.user_id = userId →
      s.is_active = false) ∧
    ((∀ s ∈ store, s.user_id ≠ userId) →
      destroyAllSessionsForUser t1 store userId = store) := by
  refine ⟨destroySession_idem t1 t2 store sid, ?_,
    destroySession_absent t1 sid store, destroyAll_idem t1 t2 store userId,
    destroyAll_inactive t1 store userId, destroyAll_absent t1 userId store⟩
  intro s hs hsid
  rw [destroySession_idem] at hs
  exact destroySession_inactive t2 store sid s hs hsid

/-- C9 witness: revoking a session id absent from the store leaves the
store unchanged and raises no error. -/
theorem C9_revoke_idempotent_total_witness :
    destroySession 0 ([] : List SessionRow) "sid1" = [] :=
  (C9_revoke_idempotent_total 0 0 [] "sid1" "u1").2.2.1 (by decide)

end BackendAuth
